import Mathlib

/-!
Shallow embedding of the subscribe event engine core of the `pubnub-rust`
SDK: the `SubscribeInput` value type (`src/dx/subscribe/event_engine/types.rs`),
the request retry policy (`src/core/retry_policy.rs`), the subscribe state
machine (`src/dx/subscribe/event_engine/state.rs`) and the handshake
reconnection / receive effects
(`src/dx/subscribe/event_engine/effects/handshake_reconnection.rs`,
`src/dx/subscribe/event_engine/effects/receive.rs`).

Machine integers (`u8`, `u32`) are embedded as `Nat` with explicit wrapping
where the code can overflow (`% 2 ^ 32` in `u32::pow`, `% 2 ^ 8` in the `u8`
attempt-counter increments).  Rust `HashSet<String>` values are embedded as duplicate-free
`List String` built by insertion order; set operations mirror the source's
`fold`/`chain`/`collect` and `-` calls.  Fallible parses return `Option`.
Async executors are collapsed to the outcome (`Except`) their future resolves
to, since every use in the embedded code only inspects that outcome.
-/

/-- Time cursor: `SubscribeCursor { timetoken: String, region: u32 }` from
`src/dx/subscribe/types.rs`. -/
structure SubscribeCursor where
  timetoken : String
  region : Nat
deriving DecidableEq, Repr

/-- Error type from `src/core/error.rs` (`enum PubNubError`).  The
cfg-gated `TokenDeserialization` variant is omitted together with its
feature flag; no embedded code constructs it. -/
inductive PubNubError where
  | transport (details : String)
  | publishError (details : String)
  | serialization (details : String)
  | deserialization (details : String)
  | noKey (details : String)
  | clientInitialization (details : String)
  | cryptoInitialization (details : String)
  | encryption (details : String)
  | decryption (details : String)
  | effectCanceled
  | subscribeInitialization (details : String)
  | api (status : Nat) (message : String) (service : Option String)
      (affected_channels : Option (List String))
      (affected_channel_groups : Option (List String))
deriving DecidableEq, Repr

/-- Update payloads are opaque to every function embedded here (the state
machine and effects only move `Vec<Update>` around); the variant structure of
`enum Update` in `src/dx/subscribe/types.rs` is collapsed to the originating
channel plus an opaque payload tag. -/
structure Update where
  channel : String
  payload : String
deriving DecidableEq, Repr

/-- Subscription statuses (`enum SubscribeStatus`).  `src/dx/subscribe/types.rs`
declares `Connected`, `Reconnected`, `Disconnected`; the state machine in
`state.rs` additionally constructs `ConnectionError(reason)`, which the spec
also lists, so it is included. -/
inductive SubscribeStatus where
  | connected
  | reconnected
  | disconnected
  | connectionError (reason : PubNubError)
deriving DecidableEq, Repr

/-- Insertion into the `List`-embedded `HashSet<String>`: a no-op when the
element is already present, mirroring `HashSet::insert`. -/
def hashSetInsert (acc : List String) (x : String) : List String :=
  if x ∈ acc then acc else acc ++ [x]

/-- `iter().fold(HashSet::new(), |acc, c| { acc.insert(c); acc })`: collect a
list into the `List`-embedded hash set, deduplicating. -/
def listToSet (xs : List String) : List String :=
  xs.foldl hashSetInsert []

/-- Set difference `&lhs - &rhs` on the `List`-embedded hash sets. -/
def setDiff (lhs rhs : List String) : List String :=
  lhs.filter (fun x => x ∉ rhs)

/-- `SubscribeInput` from `src/dx/subscribe/event_engine/types.rs`:
optional channel / channel-group sets plus the derived `is_empty` flag. -/
structure SubscribeInput where
  channels : Option (List String)
  channel_groups : Option (List String)
  is_empty : Bool
deriving DecidableEq, Repr

/-- `map_or(true, |set| set.is_empty())` applied to an optional set. -/
def optSetIsEmpty (o : Option (List String)) : Bool :=
  match o with
  | none => true
  | some s => s.isEmpty

/-- `SubscribeInput::new`: dedup both optional lists into sets and derive
`is_empty`. -/
def SubscribeInput.new (channels channel_groups : Option (List String)) :
    SubscribeInput :=
  let channels := channels.map listToSet
  let channel_groups := channel_groups.map listToSet
  let channel_groups_is_empty := optSetIsEmpty channel_groups
  let channels_is_empty := optSetIsEmpty channels
  { channels := channels
    channel_groups := channel_groups
    is_empty := channel_groups_is_empty && channels_is_empty }

/-- Union of two optional sets as in `impl Add for SubscribeInput`:
`Some(lhs.into_iter().chain(rhs).collect())` when both sides are present. -/
def optSetUnion (lhs rhs : Option (List String)) : Option (List String) :=
  match lhs, rhs with
  | some l, some r => some (listToSet (l ++ r))
  | some l, none => some l
  | none, some r => some r
  | none, none => none

/-- Difference of two optional sets as in `impl Sub for SubscribeInput`:
note the `(None, Some(_))` case collapses to `None`. -/
def optSetSub (lhs rhs : Option (List String)) : Option (List String) :=
  match lhs, rhs with
  | some l, some r => some (setDiff l r)
  | some l, none => some l
  | none, _ => none

/-- `impl Add for SubscribeInput` (union); `AddAssign` performs the identical
computation and stores it back, so it is the same function. -/
def SubscribeInput.add (lhs rhs : SubscribeInput) : SubscribeInput :=
  let channel_groups := optSetUnion lhs.channel_groups rhs.channel_groups
  let channels := optSetUnion lhs.channels rhs.channels
  let channel_groups_is_empty := optSetIsEmpty channel_groups
  let channels_is_empty := optSetIsEmpty channels
  { channels := channels
    channel_groups := channel_groups
    is_empty := channel_groups_is_empty && channels_is_empty }

/-- `impl Sub for SubscribeInput` (difference); `SubAssign` performs the
identical computation and stores it back, so it is the same function. -/
def SubscribeInput.sub (lhs rhs : SubscribeInput) : SubscribeInput :=
  let channel_groups := optSetSub lhs.channel_groups rhs.channel_groups
  let channels := optSetSub lhs.channels rhs.channels
  let channel_groups_is_empty := optSetIsEmpty channel_groups
  let channels_is_empty := optSetIsEmpty channels
  { channels := channels
    channel_groups := channel_groups
    is_empty := channel_groups_is_empty && channels_is_empty }

/-- `enum RequestRetryPolicy` from `src/core/retry_policy.rs`.  `delay`,
`min_delay`, `max_delay` are `u32`; `max_retry` is `u8`. -/
inductive RequestRetryPolicy where
  | none
  | linear (delay : Nat) (max_retry : Nat)
  | exponential (min_delay : Nat) (max_delay : Nat) (max_retry : Nat)
deriving DecidableEq, Repr

/-- `TransportResponse` from `crates/pubnub_core/src/transport_response.rs`;
the `HashMap<String, String>` of headers is embedded as an association list
and the body bytes as a list of byte values. -/
structure TransportResponse where
  status : Nat
  headers : List (String × String)
  body : Option (List Nat)
deriving DecidableEq, Repr

/-- `HashMap::get` on the embedded header map: first binding for the key. -/
def headersGet (headers : List (String × String)) (key : String) :
    Option String :=
  (headers.find? (fun p => p.fst == key)).map Prod.snd

/-- `str::parse::<u32>`: an optional leading `+`, then one or more decimal
digits, value below `2 ^ 32`; anything else fails. -/
def parseU32 (s : String) : Option Nat :=
  let digitsVal : List Char → Option Nat := fun cs =>
    if cs.isEmpty then none
    else
      cs.foldl
        (fun acc c =>
          acc.bind (fun n =>
            if c.isDigit then some (n * 10 + (c.toNat - 48)) else none))
        (some 0)
  let core : List Char → Option Nat := fun cs =>
    match cs with
    | [] => none
    | c :: rest => if c = '+' then digitsVal rest else digitsVal (c :: rest)
  (core s.toList).bind (fun n => if n < 2 ^ 32 then some n else none)

/-- `RequestRetryPolicy::retriable(attempt, status_code)`: the Rust `match`
on `status_code` with arms `429`, `500..=599` and a default. -/
def RequestRetryPolicy.retriable (p : RequestRetryPolicy) (attempt : Nat)
    (status_code : Nat) : Bool :=
  if status_code = 429 then true
  else if 500 ≤ status_code ∧ status_code ≤ 599 then
    match p with
    | .linear _ max_retry => attempt ≤ max_retry
    | .exponential _ _ max_retry => attempt ≤ max_retry
    | .none => false
  else false

/-- `u32::pow` under release-build semantics: the product wraps at `2 ^ 32`
(debug builds would panic on overflow instead). -/
def u32pow (base exp : Nat) : Nat :=
  (base ^ exp) % 2 ^ 32

/-- `matches!(self, Self::None)` as used in `retry_delay`. -/
def RequestRetryPolicy.isNone : RequestRetryPolicy → Bool
  | .none => true
  | .linear _ _ => false
  | .exponential _ _ _ => false

/-- `RequestRetryPolicy::retry_delay(attempt, response)` (the `std` build):
429 honours `Retry-After` unless the policy is `None`; 500–599 consults
`retriable` and yields the policy delay. -/
def RequestRetryPolicy.retry_delay (p : RequestRetryPolicy) (attempt : Nat)
    (response : TransportResponse) : Option Nat :=
  if response.status = 429 then
    if p.isNone then Option.none
    else (headersGet response.headers ("retry-after")).bind parseU32
  else if 500 ≤ response.status ∧ response.status ≤ 599 then
    match p with
    | .none => Option.none
    | .linear delay _ =>
      if p.retriable attempt response.status then some delay else Option.none
    | .exponential min_delay max_delay _ =>
      if p.retriable attempt response.status then
        some (Nat.min (u32pow min_delay attempt) max_delay)
      else Option.none
  else Option.none

/-- Modelled from the spec: `enum SubscribeEvent`
(`src/dx/subscribe/event_engine/event.rs` is not under src/; variant list
from spec section 3, field shapes from their uses in `state.rs`). -/
inductive SubscribeEvent where
  | subscriptionChanged (channels channel_groups : Option (List String))
  | subscriptionRestored (channels channel_groups : Option (List String))
      (cursor : SubscribeCursor)
  | handshakeSuccess (cursor : SubscribeCursor)
  | handshakeFailure (reason : PubNubError)
  | handshakeReconnectSuccess (cursor : SubscribeCursor)
  | handshakeReconnectFailure (reason : PubNubError)
  | handshakeReconnectGiveUp (reason : PubNubError)
  | receiveSuccess (cursor : SubscribeCursor) (messages : List Update)
  | receiveFailure (reason : PubNubError)
  | receiveReconnectSuccess (cursor : SubscribeCursor) (messages : List Update)
  | receiveReconnectFailure (reason : PubNubError)
  | receiveReconnectGiveUp (reason : PubNubError)
  | disconnect
  | reconnect
  | unsubscribeAll
deriving DecidableEq, Repr

/-- Modelled from the spec: `enum SubscribeEffectInvocation`
(`src/dx/subscribe/event_engine/invocation.rs` is not under src/; variant
list from spec sections 4.C/4.D, field shapes from their construction in
`state.rs`). -/
inductive SubscribeEffectInvocation where
  | handshake (input : SubscribeInput) (cursor : Option SubscribeCursor)
  | cancelHandshake
  | handshakeReconnect (input : SubscribeInput)
      (cursor : Option SubscribeCursor) (attempts : Nat)
      (reason : PubNubError)
  | cancelHandshakeReconnect
  | receive (input : SubscribeInput) (cursor : SubscribeCursor)
  | cancelReceive
  | receiveReconnect (input : SubscribeInput) (cursor : SubscribeCursor)
      (attempts : Nat) (reason : PubNubError)
  | cancelReceiveReconnect
  | emitStatus (status : SubscribeStatus)
  | emitMessages (messages : List Update)
deriving DecidableEq, Repr

/-- `enum SubscribeState` from `src/dx/subscribe/event_engine/state.rs`;
`attempts` is a `u8`. -/
inductive SubscribeState where
  | unsubscribed
  | handshaking (input : SubscribeInput) (cursor : Option SubscribeCursor)
  | handshakeReconnecting (input : SubscribeInput)
      (cursor : Option SubscribeCursor) (attempts : Nat)
      (reason : PubNubError)
  | handshakeStopped (input : SubscribeInput)
      (cursor : Option SubscribeCursor)
  | handshakeFailed (input : SubscribeInput)
      (cursor : Option SubscribeCursor) (reason : PubNubError)
  | receiving (input : SubscribeInput) (cursor : SubscribeCursor)
  | receiveReconnecting (input : SubscribeInput) (cursor : SubscribeCursor)
      (attempts : Nat) (reason : PubNubError)
  | receiveStopped (input : SubscribeInput) (cursor : SubscribeCursor)
  | receiveFailed (input : SubscribeInput) (cursor : SubscribeCursor)
      (reason : PubNubError)
deriving DecidableEq, Repr

/-- Modelled from the spec: the generic runtime's `Transition` struct
(`src/core/event_engine/mod.rs` is not under src/); spec section 4.B calls it
the pair of the invocation list and the next state, matching its literal
construction in `state.rs`'s `transition_to`. -/
structure Transition where
  invocations : List SubscribeEffectInvocation
  state : SubscribeState
deriving DecidableEq, Repr

/-- `State::enter` for `SubscribeState`. -/
def SubscribeState.enter (s : SubscribeState) :
    Option (List SubscribeEffectInvocation) :=
  match s with
  | .handshaking input cursor => some [.handshake input cursor]
  | .handshakeReconnecting input cursor attempts reason =>
    some [.handshakeReconnect input cursor attempts reason]
  | .receiving input cursor => some [.receive input cursor]
  | .receiveReconnecting input cursor attempts reason =>
    some [.receiveReconnect input cursor attempts reason]
  | _ => Option.none

/-- `State::exit` for `SubscribeState`. -/
def SubscribeState.exit (s : SubscribeState) :
    Option (List SubscribeEffectInvocation) :=
  match s with
  | .handshaking _ _ => some [.cancelHandshake]
  | .handshakeReconnecting _ _ _ _ => some [.cancelHandshakeReconnect]
  | .receiving _ _ => some [.cancelReceive]
  | .receiveReconnecting _ _ _ _ => some [.cancelReceiveReconnect]
  | _ => Option.none

/-- `State::transition_to`: exit invocations, then the optional
mid-transition invocations, then the next state's enter invocations. -/
def SubscribeState.transition_to (s : SubscribeState)
    (state : SubscribeState)
    (invocations : Option (List SubscribeEffectInvocation)) : Transition :=
  { invocations := s.exit.getD [] ++ invocations.getD [] ++ state.enter.getD []
    state := state }

/-- `SubscribeState::subscription_changed_transition`. -/
def SubscribeState.subscription_changed_transition (s : SubscribeState)
    (channels channel_groups : Option (List String)) : Option Transition :=
  match s with
  | .unsubscribed =>
    some (s.transition_to
      (.handshaking (SubscribeInput.new channels channel_groups) Option.none)
      Option.none)
  | .handshaking _ cursor
  | .handshakeReconnecting _ cursor _ _
  | .handshakeFailed _ cursor _ =>
    some (s.transition_to
      (.handshaking (SubscribeInput.new channels channel_groups) cursor)
      Option.none)
  | .handshakeStopped _ cursor =>
    some (s.transition_to
      (.handshaking (SubscribeInput.new channels channel_groups) cursor)
      Option.none)
  | .receiving _ cursor
  | .receiveReconnecting _ cursor _ _ =>
    some (s.transition_to
      (.receiving (SubscribeInput.new channels channel_groups) cursor)
      Option.none)
  | .receiveFailed _ cursor _ =>
    some (s.transition_to
      (.handshaking (SubscribeInput.new channels channel_groups) (some cursor))
      Option.none)
  | .receiveStopped _ cursor =>
    some (s.transition_to
      (.receiveStopped (SubscribeInput.new channels channel_groups) cursor)
      Option.none)

/-- `SubscribeState::subscription_restored_transition`. -/
def SubscribeState.subscription_restored_transition (s : SubscribeState)
    (channels channel_groups : Option (List String))
    (restore_cursor : SubscribeCursor) : Option Transition :=
  match s with
  | .unsubscribed =>
    some (s.transition_to
      (.handshaking (SubscribeInput.new channels channel_groups)
        (some restore_cursor))
      Option.none)
  | .handshaking _ cursor
  | .handshakeReconnecting _ cursor _ _
  | .handshakeFailed _ cursor _
  | .handshakeStopped _ cursor =>
    some (s.transition_to
      (.handshaking (SubscribeInput.new channels channel_groups)
        (some (cursor.getD restore_cursor)))
      Option.none)
  | .receiving _ _
  | .receiveReconnecting _ _ _ _ =>
    some (s.transition_to
      (.receiving (SubscribeInput.new channels channel_groups) restore_cursor)
      Option.none)
  | .receiveFailed _ _ _ =>
    some (s.transition_to
      (.handshaking (SubscribeInput.new channels channel_groups)
        (some restore_cursor))
      Option.none)
  | .receiveStopped _ _ =>
    some (s.transition_to
      (.receiveStopped (SubscribeInput.new channels channel_groups)
        restore_cursor)
      Option.none)

/-- `SubscribeState::handshake_success_transition` (also handles
`HandshakeReconnectSuccess`). -/
def SubscribeState.handshake_success_transition (s : SubscribeState)
    (next_cursor : SubscribeCursor) : Option Transition :=
  match s with
  | .handshaking input cursor
  | .handshakeReconnecting input cursor _ _ =>
    some (s.transition_to
      (.receiving input (cursor.getD next_cursor))
      (some [.emitStatus .connected]))
  | _ => Option.none

/-- `SubscribeState::handshake_failure_transition`. -/
def SubscribeState.handshake_failure_transition (s : SubscribeState)
    (reason : PubNubError) : Option Transition :=
  match s with
  | .handshaking input cursor =>
    some (s.transition_to
      (.handshakeReconnecting input cursor 1 reason) Option.none)
  | _ => Option.none

/-- `SubscribeState::handshake_reconnect_failure_transition`; the `u8`
attempt counter increment wraps at `2 ^ 8`. -/
def SubscribeState.handshake_reconnect_failure_transition
    (s : SubscribeState) (reason : PubNubError) : Option Transition :=
  match s with
  | .handshakeReconnecting input cursor attempts _ =>
    some (s.transition_to
      (.handshakeReconnecting input cursor ((attempts + 1) % 2 ^ 8) reason)
      Option.none)
  | _ => Option.none

/-- `SubscribeState::handshake_reconnect_give_up_transition`. -/
def SubscribeState.handshake_reconnect_give_up_transition
    (s : SubscribeState) (reason : PubNubError) : Option Transition :=
  match s with
  | .handshakeReconnecting input cursor _ _ =>
    some (s.transition_to
      (.handshakeFailed input cursor reason)
      (some [.emitStatus (.connectionError reason)]))
  | _ => Option.none

/-- `SubscribeState::receive_success_transition` (also handles
`ReceiveReconnectSuccess`). -/
def SubscribeState.receive_success_transition (s : SubscribeState)
    (cursor : SubscribeCursor) (messages : List Update) : Option Transition :=
  match s with
  | .receiving input _
  | .receiveReconnecting input _ _ _ =>
    some (s.transition_to
      (.receiving input cursor)
      (some [.emitMessages messages]))
  | _ => Option.none

/-- `SubscribeState::receive_failure_transition`. -/
def SubscribeState.receive_failure_transition (s : SubscribeState)
    (reason : PubNubError) : Option Transition :=
  match s with
  | .receiving input cursor =>
    some (s.transition_to
      (.receiveReconnecting input cursor 1 reason) Option.none)
  | _ => Option.none

/-- `SubscribeState::receive_reconnect_failure_transition`; the `u8`
attempt counter increment wraps at `2 ^ 8`. -/
def SubscribeState.receive_reconnect_failure_transition (s : SubscribeState)
    (reason : PubNubError) : Option Transition :=
  match s with
  | .receiveReconnecting input cursor attempts _ =>
    some (s.transition_to
      (.receiveReconnecting input cursor ((attempts + 1) % 2 ^ 8) reason)
      Option.none)
  | _ => Option.none

/-- `SubscribeState::receive_reconnect_give_up_transition`. -/
def SubscribeState.receive_reconnect_give_up_transition (s : SubscribeState)
    (reason : PubNubError) : Option Transition :=
  match s with
  | .receiveReconnecting input cursor _ _ =>
    some (s.transition_to
      (.receiveFailed input cursor reason)
      (some [.emitStatus .disconnected]))
  | _ => Option.none

/-- `SubscribeState::disconnect_transition`. -/
def SubscribeState.disconnect_transition (s : SubscribeState) :
    Option Transition :=
  match s with
  | .handshaking input cursor
  | .handshakeReconnecting input cursor _ _ =>
    some (s.transition_to (.handshakeStopped input cursor) Option.none)
  | .receiving input cursor
  | .receiveReconnecting input cursor _ _ =>
    some (s.transition_to
      (.receiveStopped input cursor)
      (some [.emitStatus .disconnected]))
  | _ => Option.none

/-- `SubscribeState::reconnect_transition`. -/
def SubscribeState.reconnect_transition (s : SubscribeState) :
    Option Transition :=
  match s with
  | .handshakeStopped input cursor
  | .handshakeFailed input cursor _ =>
    some (s.transition_to (.handshaking input cursor) Option.none)
  | .receiveStopped input cursor
  | .receiveFailed input cursor _ =>
    some (s.transition_to (.handshaking input (some cursor)) Option.none)
  | _ => Option.none

/-- `SubscribeState::unsubscribe_all_transition`: unconditionally `Some`,
from every state. -/
def SubscribeState.unsubscribe_all_transition (s : SubscribeState) :
    Option Transition :=
  some (s.transition_to .unsubscribed (some [.emitStatus .disconnected]))

/-- `State::transition` for `SubscribeState`: dispatch on the event. -/
def SubscribeState.transition (s : SubscribeState) (event : SubscribeEvent) :
    Option Transition :=
  match event with
  | .subscriptionChanged channels channel_groups =>
    s.subscription_changed_transition channels channel_groups
  | .subscriptionRestored channels channel_groups cursor =>
    s.subscription_restored_transition channels channel_groups cursor
  | .handshakeSuccess cursor
  | .handshakeReconnectSuccess cursor =>
    s.handshake_success_transition cursor
  | .handshakeFailure reason => s.handshake_failure_transition reason
  | .handshakeReconnectFailure reason =>
    s.handshake_reconnect_failure_transition reason
  | .handshakeReconnectGiveUp reason =>
    s.handshake_reconnect_give_up_transition reason
  | .receiveSuccess cursor messages
  | .receiveReconnectSuccess cursor messages =>
    s.receive_success_transition cursor messages
  | .receiveFailure reason => s.receive_failure_transition reason
  | .receiveReconnectFailure reason =>
    s.receive_reconnect_failure_transition reason
  | .receiveReconnectGiveUp reason =>
    s.receive_reconnect_give_up_transition reason
  | .disconnect => s.disconnect_transition
  | .reconnect => s.reconnect_transition
  | .unsubscribeAll => s.unsubscribe_all_transition

/-- Modelled from the spec: `SubscribeResult { cursor, messages }`
(`src/dx/subscribe/result.rs` is not under src/); the subscribe call result
carried by a successful executor future, per spec section 4.D. -/
structure SubscribeResult where
  cursor : SubscribeCursor
  messages : List Update
deriving DecidableEq, Repr

/-- Modelled from the spec: the reason-based
`RequestRetryPolicy::retriable(attempt, Option<&PubNubError>)` overload
called by `handshake_reconnection.rs` is not under src/ (src/ only has the
status-code overload).  Per spec sections 4.A and 7: the `None` policy never
retries; `Linear`/`Exponential` retry while `attempt ≤ max_retry`, with
transport errors retriable per policy, API errors retriable only for status
429 or 500–599, and serialization errors never retried. -/
def RequestRetryPolicy.retriableReason (p : RequestRetryPolicy)
    (attempt : Nat) (reason : Option PubNubError) : Bool :=
  match p with
  | .none => false
  | .linear _ max_retry | .exponential _ _ max_retry =>
    decide (attempt ≤ max_retry) &&
      match reason with
      | some (.api status _ _ _ _) =>
        status == 429 || (500 ≤ status && status ≤ 599)
      | some (.serialization _) => false
      | some (.deserialization _) => false
      | _ => true

/-- `execute` from
`src/dx/subscribe/event_engine/effects/handshake_reconnection.rs`.  The
async `executor` is collapsed to the outcome its future resolves to
(`exec_result`); the `effect_id` parameter is only logged and is dropped. -/
def handshakeReconnectExecute (input : SubscribeInput) (attempt : Nat)
    (reason : PubNubError) (retry_policy : RequestRetryPolicy)
    (exec_result : Except PubNubError SubscribeResult) :
    List SubscribeEvent :=
  if !(retry_policy.retriableReason attempt (some reason)) then
    [.handshakeReconnectGiveUp reason]
  else if input.is_empty then
    [.unsubscribeAll]
  else
    match exec_result with
    | .error e =>
      if e = PubNubError.effectCanceled then []
      else [.handshakeReconnectFailure e]
    | .ok subscribe_result =>
      [.handshakeReconnectSuccess subscribe_result.cursor]

/-- `execute` from `src/dx/subscribe/event_engine/effects/receive.rs`.  The
body that would call the executor is commented out in the source; the
function logs and returns `None` unconditionally.  The executor is collapsed
to the outcome it would return (`exec_result`), which the source ignores. -/
def receiveExecute (channels channel_groups : Option (List String))
    (cursor : SubscribeCursor)
    (exec_result : Except PubNubError (List SubscribeEvent)) :
    Option (List SubscribeEvent) :=
  Option.none

/-- An invocation that (re-)issues a handshake: the `Handshake` or
`HandshakeReconnect` effect invocation. -/
def SubscribeEffectInvocation.isHandshakeInvocation :
    SubscribeEffectInvocation → Bool
  | .handshake _ _ => true
  | .handshakeReconnect _ _ _ _ => true
  | _ => false

/-- C7: for every current state, next state, and optional mid-transition
invocation list, `transition_to` produces a `Transition` whose invocation
list is the concatenation, in order, of the current state's `exit`
invocations, then the mid-transition invocations, then the next state's
`enter` invocations (absent lists contributing nothing), and whose state is
the next state. -/
theorem transition_to_invocation_order (s next : SubscribeState)
    (mid : Option (List SubscribeEffectInvocation)) :
    (s.transition_to next mid).invocations =
      s.exit.getD [] ++ mid.getD [] ++ next.enter.getD [] ∧
    (s.transition_to next mid).state = next :=
  ⟨rfl, rfl⟩

/-- C1 counterexample: contrary to the claim, the `UnsubscribeAll` event
applied to `Unsubscribed` does produce a transition, and that transition
carries an `EmitStatus(Disconnected)` invocation. -/
theorem unsubscribed_unsubscribeAll_counterexample :
    SubscribeState.unsubscribed.transition SubscribeEvent.unsubscribeAll =
      some { invocations := [.emitStatus .disconnected],
             state := .unsubscribed } :=
  rfl

/-- C1 (amended): from `Unsubscribed`, only `SubscriptionChanged`,
`SubscriptionRestored` and `UnsubscribeAll` produce a transition;
`UnsubscribeAll` yields `Unsubscribed` again with a single
`EmitStatus(Disconnected)` invocation; every other event returns no
transition (so the state stays `Unsubscribed` and no invocations are
produced). -/
theorem unsubscribed_transition_cases (e : SubscribeEvent) :
    (∃ c g, e = SubscribeEvent.subscriptionChanged c g) ∨
    (∃ c g cur, e = SubscribeEvent.subscriptionRestored c g cur) ∨
    (e = SubscribeEvent.unsubscribeAll ∧
      SubscribeState.unsubscribed.transition e =
        some { invocations := [.emitStatus .disconnected],
               state := .unsubscribed }) ∨
    SubscribeState.unsubscribed.transition e = Option.none := by
  cases e with
  | subscriptionChanged c g => exact Or.inl ⟨c, g, rfl⟩
  | subscriptionRestored c g cur => exact Or.inr (Or.inl ⟨c, g, cur, rfl⟩)
  | unsubscribeAll => exact Or.inr (Or.inr (Or.inl ⟨rfl, rfl⟩))
  | handshakeSuccess cur => exact Or.inr (Or.inr (Or.inr rfl))
  | handshakeFailure r => exact Or.inr (Or.inr (Or.inr rfl))
  | handshakeReconnectSuccess cur => exact Or.inr (Or.inr (Or.inr rfl))
  | handshakeReconnectFailure r => exact Or.inr (Or.inr (Or.inr rfl))
  | handshakeReconnectGiveUp r => exact Or.inr (Or.inr (Or.inr rfl))
  | receiveSuccess cur msgs => exact Or.inr (Or.inr (Or.inr rfl))
  | receiveFailure r => exact Or.inr (Or.inr (Or.inr rfl))
  | receiveReconnectSuccess cur msgs => exact Or.inr (Or.inr (Or.inr rfl))
  | receiveReconnectFailure r => exact Or.inr (Or.inr (Or.inr rfl))
  | receiveReconnectGiveUp r => exact Or.inr (Or.inr (Or.inr rfl))
  | disconnect => exact Or.inr (Or.inr (Or.inr rfl))
  | reconnect => exact Or.inr (Or.inr (Or.inr rfl))

/-- C2: `SubscriptionRestored{c,g,cur}` applied to `Handshaking`,
`HandshakeReconnecting`, `HandshakeFailed` or `HandshakeStopped` yields a
`Handshaking` state whose input is built from `(c,g)` and whose cursor is
the prior state's preserved cursor when present, else `cur`. -/
theorem handshake_states_subscription_restored
    (c g : Option (List String)) (cur : SubscribeCursor)
    (input : SubscribeInput) (pcur : Option SubscribeCursor)
    (attempts : Nat) (reason : PubNubError) :
    ((SubscribeState.handshaking input pcur).transition
        (.subscriptionRestored c g cur)).map Transition.state =
      some (.handshaking (SubscribeInput.new c g)
        (match pcur with | some p => some p | none => some cur)) ∧
    ((SubscribeState.handshakeReconnecting input pcur attempts
        reason).transition
        (.subscriptionRestored c g cur)).map Transition.state =
      some (.handshaking (SubscribeInput.new c g)
        (match pcur with | some p => some p | none => some cur)) ∧
    ((SubscribeState.handshakeFailed input pcur reason).transition
        (.subscriptionRestored c g cur)).map Transition.state =
      some (.handshaking (SubscribeInput.new c g)
        (match pcur with | some p => some p | none => some cur)) ∧
    ((SubscribeState.handshakeStopped input pcur).transition
        (.subscriptionRestored c g cur)).map Transition.state =
      some (.handshaking (SubscribeInput.new c g)
        (match pcur with | some p => some p | none => some cur)) := by
  cases pcur <;> exact ⟨rfl, rfl, rfl, rfl⟩

/-- C3 counterexample: at a `ReceiveFailed` state with failure cursor
`{"20",1}`, `SubscriptionRestored` with event cursor `{"10",1}` yields a
`Handshaking` state whose cursor is the event's cursor `Some({"10",1})`,
not the failure state's cursor `Some({"20",1})` — the two differ. -/
theorem receiveFailed_restored_cursor_counterexample :
    ((SubscribeState.receiveFailed
        (SubscribeInput.new (some [("ch1")]) Option.none)
        { timetoken := ("20"), region := 1 }
        (PubNubError.transport ("t"))).transition
      (.subscriptionRestored (some [("ch2")]) Option.none
        { timetoken := ("10"), region := 1 })).map Transition.state =
      some (.handshaking (SubscribeInput.new (some [("ch2")]) Option.none)
        (some { timetoken := ("10"), region := 1 })) ∧
    ({ timetoken := ("10"), region := 1 } : SubscribeCursor) ≠
      { timetoken := ("20"), region := 1 } :=
  ⟨rfl, by decide⟩

/-- C3 (amended): from `ReceiveFailed{input,cursor,reason}`, each of
`SubscriptionChanged`, `Reconnect` and `SubscriptionRestored` transitions to
`Handshaking`; `SubscriptionChanged` and `Reconnect` carry the failure
cursor forward as `Some(cursor)`, while `SubscriptionRestored` instead uses
the event's restore cursor `Some(cur)`. -/
theorem receiveFailed_resubscribe_transitions
    (input : SubscribeInput) (cursor : SubscribeCursor)
    (reason : PubNubError) (c g : Option (List String))
    (rcur : SubscribeCursor) :
    ((SubscribeState.receiveFailed input cursor reason).transition
        (.subscriptionChanged c g)).map Transition.state =
      some (.handshaking (SubscribeInput.new c g) (some cursor)) ∧
    ((SubscribeState.receiveFailed input cursor reason).transition
        .reconnect).map Transition.state =
      some (.handshaking input (some cursor)) ∧
    ((SubscribeState.receiveFailed input cursor reason).transition
        (.subscriptionRestored c g rcur)).map Transition.state =
      some (.handshaking (SubscribeInput.new c g) (some rcur)) :=
  ⟨rfl, rfl, rfl⟩

/-- C4: `SubscriptionChanged{c,g}` applied to `Receiving{input,cursor}`
yields `Receiving` with the input rebuilt from `(c,g)` and the cursor
preserved exactly; the invocations are `[CancelReceive, Receive]` and none
of them is a handshake invocation. -/
theorem receiving_subscription_changed
    (input : SubscribeInput) (cursor : SubscribeCursor)
    (c g : Option (List String)) :
    (SubscribeState.receiving input cursor).transition
        (.subscriptionChanged c g) =
      some { invocations := [.cancelReceive,
               .receive (SubscribeInput.new c g) cursor],
             state := .receiving (SubscribeInput.new c g) cursor } ∧
    ∀ inv ∈ [SubscribeEffectInvocation.cancelReceive,
        .receive (SubscribeInput.new c g) cursor],
      inv.isHandshakeInvocation = false := by
  refine ⟨rfl, ?_⟩
  intro inv h
  rcases List.mem_cons.mp h with rfl | h
  · rfl
  rcases List.mem_cons.mp h with rfl | h
  · rfl
  · cases h

/-- C5 counterexample: with `min_delay = 65536`, `max_delay = 100`,
`max_retry = 2`, attempt `2` and a 500 response, the `u32` power wraps
(`65536^2 = 2^32 ≡ 0`), so `retry_delay` returns `Some(0)` while the
claimed formula `min(min_delay^attempt, max_delay)` gives `100`. -/
theorem exponential_overflow_counterexample :
    (RequestRetryPolicy.exponential 65536 100 2).retry_delay 2
        { status := 500, headers := [], body := Option.none } = some 0 ∧
    Nat.min (65536 ^ 2) 100 = 100 ∧ (0 : Nat) ≠ 100 := by
  refine ⟨?_, by norm_num, by decide⟩
  rfl

/-- C5 (amended): for `Exponential{min_delay,max_delay,max_retry}` and any
response with status in 500–599, `retry_delay(a, response)` returns
`Some(min(min_delay^a mod 2^32, max_delay))` when `a ≤ max_retry` — equal
to the claimed `Some(min(min_delay^a, max_delay))` whenever the power does
not overflow `u32` — and `None` when `a > max_retry`. -/
theorem exponential_retry_delay (min_delay max_delay max_retry a : Nat)
    (r : TransportResponse) (h5 : 500 ≤ r.status) (h9 : r.status ≤ 599) :
    (a ≤ max_retry →
      (RequestRetryPolicy.exponential min_delay max_delay
          max_retry).retry_delay a r =
        some (Nat.min ((min_delay ^ a) % 2 ^ 32) max_delay)) ∧
    (max_retry < a →
      (RequestRetryPolicy.exponential min_delay max_delay
          max_retry).retry_delay a r = Option.none) := by
  have h429 : ¬(r.status = 429) := by omega
  constructor
  · intro h
    simp [RequestRetryPolicy.retry_delay, RequestRetryPolicy.retriable,
      u32pow, h429, h5, h9, h]
  · intro h
    simp [RequestRetryPolicy.retry_delay, RequestRetryPolicy.retriable,
      h429, h5, h9, Nat.not_le.mpr h]

/-- Closed witness for the C5 amended theorem at
`Exponential{8,100,2}`: attempt 2 on a 500 response yields
`Some(min(8^2 mod 2^32, 100)) = Some(64)`, attempt 3 yields `None`. -/
theorem exponential_retry_delay_witness :
    (RequestRetryPolicy.exponential 8 100 2).retry_delay 2
        { status := 500, headers := [], body := Option.none } =
      some (Nat.min ((8 ^ 2) % 2 ^ 32) 100) ∧
    (RequestRetryPolicy.exponential 8 100 2).retry_delay 3
        { status := 500, headers := [], body := Option.none } =
      Option.none :=
  ⟨(exponential_retry_delay 8 100 2 2
      { status := 500, headers := [], body := Option.none }
      (by decide) (by decide)).1 (by decide),
   (exponential_retry_delay 8 100 2 3
      { status := 500, headers := [], body := Option.none }
      (by decide) (by decide)).2 (by decide)⟩

/-- C6 counterexample: contrary to the claim that the `None` policy's
`retriable` returns `false` for every status, status 429 makes `retriable`
return `true` for every policy, including `None`. -/
theorem none_policy_retriable_429_counterexample :
    RequestRetryPolicy.none.retriable 1 429 = true :=
  rfl

/-- C6 (amended): for the `None` policy, `retry_delay` returns `None` for
every attempt and every response (including 429 with a `Retry-After`
header), and `retriable` returns `false` for every status except 429, where
it returns `true` regardless of the policy. -/
theorem none_policy_behavior (a : Nat) (r : TransportResponse) (s : Nat) :
    RequestRetryPolicy.none.retry_delay a r = Option.none ∧
    (s ≠ 429 → RequestRetryPolicy.none.retriable a s = false) ∧
    RequestRetryPolicy.none.retriable a 429 = true := by
  refine ⟨?_, ?_, rfl⟩
  · unfold RequestRetryPolicy.retry_delay
    split_ifs with h1 h2 <;> first | rfl | exact absurd rfl h2
  · intro hs
    unfold RequestRetryPolicy.retriable
    rw [if_neg hs]
    split_ifs <;> rfl

/-- Closed witness for the C6 amended theorem: attempt 1 with a 429
response carrying `Retry-After: 150` still yields `None`, status 500 is not
retriable under `None`, and status 429 is reported retriable. -/
theorem none_policy_behavior_witness :
    RequestRetryPolicy.none.retry_delay 1
        { status := 429, headers := [(("retry-after"), ("150"))],
          body := Option.none } = Option.none ∧
    RequestRetryPolicy.none.retriable 1 500 = false ∧
    RequestRetryPolicy.none.retriable 1 429 = true :=
  ⟨(none_policy_behavior 1
      { status := 429, headers := [(("retry-after"), ("150"))],
        body := Option.none } 500).1,
   (none_policy_behavior 1
      { status := 429, headers := [(("retry-after"), ("150"))],
        body := Option.none } 500).2.1 (by decide),
   (none_policy_behavior 1
      { status := 429, headers := [(("retry-after"), ("150"))],
        body := Option.none } 500).2.2⟩

/-- C8: when the handshake-reconnect effect reaches its executor (the retry
gate passes and the input is non-empty) and the executor fails with
`EffectCanceled`, the effect returns the empty event list; for every other
error it produces exactly one `HandshakeReconnectFailure` carrying that
error. -/
theorem handshake_reconnect_cancel_filtering (input : SubscribeInput)
    (attempt : Nat) (reason : PubNubError) (p : RequestRetryPolicy)
    (hret : p.retriableReason attempt (some reason) = true)
    (hne : input.is_empty = false) :
    handshakeReconnectExecute input attempt reason p
        (.error PubNubError.effectCanceled) = [] ∧
    ∀ e : PubNubError, e ≠ PubNubError.effectCanceled →
      handshakeReconnectExecute input attempt reason p (.error e) =
        [.handshakeReconnectFailure e] := by
  constructor
  · simp [handshakeReconnectExecute, hret, hne]
  · intro e he
    simp [handshakeReconnectExecute, hret, hne, he]

/-- Closed witness for the C8 theorem: with input `{ch1}`, attempt 1,
a transport reason and policy `Linear{0,1}`, cancellation yields no events
and a transport error yields exactly the failure event. -/
theorem handshake_reconnect_cancel_filtering_witness :
    handshakeReconnectExecute
        (SubscribeInput.new (some [("ch1")]) Option.none) 1
        (PubNubError.transport ("t")) (RequestRetryPolicy.linear 0 1)
        (.error PubNubError.effectCanceled) = [] ∧
    handshakeReconnectExecute
        (SubscribeInput.new (some [("ch1")]) Option.none) 1
        (PubNubError.transport ("t")) (RequestRetryPolicy.linear 0 1)
        (.error (PubNubError.transport ("x"))) =
      [.handshakeReconnectFailure (PubNubError.transport ("x"))] :=
  ⟨(handshake_reconnect_cancel_filtering _ 1 _ _ (by decide) (by decide)).1,
   (handshake_reconnect_cancel_filtering _ 1 _ _ (by decide)
      (by decide)).2 _ (by decide)⟩

/-- C9: the `Receive` effect's `execute` returns `None` — no event at all —
even on a completed call whose executor produced a successful result,
because its body is commented out in the source; this contradicts the claim
(and the file's own tests, which expect `Some([ReceiveSuccess ...])`). -/
theorem receive_execute_returns_no_events :
    receiveExecute (some [("ch1")]) (some [("cg1")])
        { timetoken := ("0"), region := 0 }
        (.ok [.receiveSuccess { timetoken := ("0"), region := 0 } []]) =
      Option.none :=
  rfl

/-- The claimed `SubscribeInput` invariant: `is_empty` holds exactly when
the channels set is absent or empty and the channel-groups set is absent or
empty. -/
def inputInvariant (i : SubscribeInput) : Prop :=
  i.is_empty = true ↔
    ((i.channels = Option.none ∨ i.channels = some []) ∧
     (i.channel_groups = Option.none ∨ i.channel_groups = some []))

theorem optSetIsEmpty_iff (o : Option (List String)) :
    optSetIsEmpty o = true ↔ (o = Option.none ∨ o = some []) := by
  cases o with
  | none => simp [optSetIsEmpty]
  | some l => cases l <;> simp [optSetIsEmpty]

theorem isEmpty_flag_iff (cs gs : Option (List String)) :
    (optSetIsEmpty gs && optSetIsEmpty cs) = true ↔
      ((cs = Option.none ∨ cs = some []) ∧
       (gs = Option.none ∨ gs = some [])) := by
  rw [Bool.and_eq_true, optSetIsEmpty_iff, optSetIsEmpty_iff]
  tauto

theorem foldl_hashSetInsert_nodup (xs : List String) (acc : List String)
    (h : acc.Nodup) : (xs.foldl hashSetInsert acc).Nodup := by
  induction xs generalizing acc with
  | nil => simpa using h
  | cons x xs ih =>
    simp only [List.foldl_cons]
    apply ih
    unfold hashSetInsert
    split
    · exact h
    · rename_i hx
      simp [List.nodup_append, h, hx]

theorem foldl_hashSetInsert_mem (xs : List String) (acc : List String)
    (y : String) :
    y ∈ xs.foldl hashSetInsert acc ↔ y ∈ acc ∨ y ∈ xs := by
  induction xs generalizing acc with
  | nil => simp
  | cons x xs ih =>
    simp only [List.foldl_cons, ih, List.mem_cons]
    unfold hashSetInsert
    split
    · rename_i hx
      constructor
      · rintro (h | h)
        · exact Or.inl h
        · exact Or.inr (Or.inr h)
      · rintro (h | rfl | h)
        · exact Or.inl h
        · exact Or.inl hx
        · exact Or.inr h
    · simp only [List.mem_append, List.mem_singleton]
      tauto

/-- C10: every `SubscribeInput` produced by `new`, by union (`Add` /
`AddAssign`), or by difference (`Sub` / `SubAssign`) satisfies the
invariant that `is_empty` holds iff both optional sets are absent or empty;
and `new` deduplicates the given lists into sets (no duplicates, same
membership). -/
theorem subscribe_input_invariant_and_dedup
    (cs gs : Option (List String)) (a b : SubscribeInput)
    (l : List String) :
    inputInvariant (SubscribeInput.new cs gs) ∧
    inputInvariant (a.add b) ∧
    inputInvariant (a.sub b) ∧
    (SubscribeInput.new (some l) gs).channels = some (listToSet l) ∧
    (SubscribeInput.new cs (some l)).channel_groups =
      some (listToSet l) ∧
    (listToSet l).Nodup ∧
    (∀ y, y ∈ listToSet l ↔ y ∈ l) := by
  refine ⟨?_, ?_, ?_, rfl, rfl, ?_, ?_⟩
  · show (optSetIsEmpty _ && optSetIsEmpty _) = true ↔ _
    exact isEmpty_flag_iff _ _
  · show (optSetIsEmpty _ && optSetIsEmpty _) = true ↔ _
    exact isEmpty_flag_iff _ _
  · show (optSetIsEmpty _ && optSetIsEmpty _) = true ↔ _
    exact isEmpty_flag_iff _ _
  · exact foldl_hashSetInsert_nodup l [] List.nodup_nil
  · intro y
    simpa using foldl_hashSetInsert_mem l [] y
